import Mathlib

/-!
Shallow embedding of the nRF52 SPIM HAL
(`components/drivers_nrf/hal/nrf_spim.h`, SDK 0.9.1).

The header is a flat set of register accessors over a memory-mapped
peripheral.  We model the register block as a map from absolute byte
addresses to 32-bit word values, and each accessor as a function that
returns the updated memory together with the list of volatile accesses
it performs, in order.  Register offsets and bit-mask constants come
from the vendor register-definition header (`nrf.h`), which is external
to this repository; they are modelled from the spec using the standard
nRF52 SPIM register map.
-/

namespace NrfSpim

/-- Memory: absolute byte address of a 32-bit register ↦ its value. -/
abbrev Mem : Type := Nat → Nat

/-- One volatile access to the register block: a read observing a value,
or a write storing a value, at an absolute address. -/
inductive Access where
  | read (addr : Nat) (val : Nat)
  | write (addr : Nat) (val : Nat)
deriving DecidableEq, Repr

/-- A single 32-bit volatile store: the register keeps the low 32 bits. -/
def writeReg (m : Mem) (addr : Nat) (v : Nat) : Mem × List Access :=
  (fun a => if a = addr then v % 2 ^ 32 else m a, [Access.write addr (v % 2 ^ 32)])

/-- A single 32-bit volatile load. -/
def readReg (m : Mem) (addr : Nat) : Nat × List Access :=
  (m addr, [Access.read addr (m addr)])

/-- Bitwise complement of a 32-bit value (C `~mask` on `uint32_t`). -/
def compl32 (mask : Nat) : Nat := 0xFFFFFFFF ^^^ (mask % 2 ^ 32)

/-- `NRF_SPIM_PIN_NOT_CONNECTED`, the all-bits-set sentinel for an
unconnected SPI signal: `#define NRF_SPIM_PIN_NOT_CONNECTED 0xFFFFFFFF`
(`nrf_spim.h` line 36). -/
def NRF_SPIM_PIN_NOT_CONNECTED : Nat := 0xFFFFFFFF

/-- SPIM tasks (`nrf_spim_task_t`). -/
inductive nrf_spim_task_t where
  | START
  | STOP
  | SUSPEND
  | RESUME
deriving DecidableEq, Repr

/-- Modelled from the spec: each task enum value is the byte offset of its
trigger register in `NRF_SPIM_Type` (supplied by the external vendor
header via `offsetof`); offsets follow the nRF52 SPIM register map. -/
def taskOffset : nrf_spim_task_t → Nat
  | nrf_spim_task_t.START => 0x010
  | nrf_spim_task_t.STOP => 0x014
  | nrf_spim_task_t.SUSPEND => 0x01C
  | nrf_spim_task_t.RESUME => 0x020

/-- SPIM events (`nrf_spim_event_t`), NRF52 variant (includes `END`). -/
inductive nrf_spim_event_t where
  | STOPPED
  | ENDRX
  | END
  | ENDTX
  | STARTED
deriving DecidableEq, Repr

/-- Modelled from the spec: each event enum value is the byte offset of its
flag register in `NRF_SPIM_Type` (external vendor header, nRF52 map). -/
def eventOffset : nrf_spim_event_t → Nat
  | nrf_spim_event_t.STOPPED => 0x104
  | nrf_spim_event_t.ENDRX => 0x110
  | nrf_spim_event_t.END => 0x118
  | nrf_spim_event_t.ENDTX => 0x120
  | nrf_spim_event_t.STARTED => 0x14C

/-- Modelled from the spec: byte offset of the `SHORTS` register. -/
def off_SHORTS : Nat := 0x200

/-- Modelled from the spec: byte offset of the `INTENSET` register. -/
def off_INTENSET : Nat := 0x304

/-- Modelled from the spec: byte offset of the `INTENCLR` register. -/
def off_INTENCLR : Nat := 0x308

/-- Modelled from the spec: byte offset of the `ENABLE` register. -/
def off_ENABLE : Nat := 0x500

/-- Modelled from the spec: byte offset of the `PSEL.SCK` register. -/
def off_PSEL_SCK : Nat := 0x508

/-- Modelled from the spec: byte offset of the `PSEL.MOSI` register. -/
def off_PSEL_MOSI : Nat := 0x50C

/-- Modelled from the spec: byte offset of the `PSEL.MISO` register. -/
def off_PSEL_MISO : Nat := 0x510

/-- Modelled from the spec: byte offset of the `FREQUENCY` register. -/
def off_FREQUENCY : Nat := 0x524

/-- Modelled from the spec: byte offset of the `RXD.PTR` register. -/
def off_RXD_PTR : Nat := 0x534

/-- Modelled from the spec: byte offset of the `RXD.MAXCNT` register. -/
def off_RXD_MAXCNT : Nat := 0x538

/-- Modelled from the spec: byte offset of the `TXD.PTR` register. -/
def off_TXD_PTR : Nat := 0x544

/-- Modelled from the spec: byte offset of the `TXD.MAXCNT` register. -/
def off_TXD_MAXCNT : Nat := 0x548

/-- Modelled from the spec: byte offset of the `CONFIG` register. -/
def off_CONFIG : Nat := 0x554

/-- Modelled from the spec: byte offset of the `ORC` register. -/
def off_ORC : Nat := 0x5C0

/-- SPIM interrupt masks (`nrf_spim_int_mask_t`), NRF52 variant. -/
inductive nrf_spim_int_mask_t where
  | STOPPED
  | ENDRX
  | END
  | ENDTX
  | STARTED
deriving DecidableEq, Repr

/-- Modelled from the spec: the vendor `SPIM_INTENSET_*_Msk` constants, one
bit per event, mirroring the event identifiers bit-for-bit. -/
def intMaskVal : nrf_spim_int_mask_t → Nat
  | nrf_spim_int_mask_t.STOPPED => 0x2
  | nrf_spim_int_mask_t.ENDRX => 0x10
  | nrf_spim_int_mask_t.END => 0x40
  | nrf_spim_int_mask_t.ENDTX => 0x100
  | nrf_spim_int_mask_t.STARTED => 0x80000

/-- Bit position of each interrupt mask (`SPIM_INTENSET_*_Pos`). -/
def intMaskPos : nrf_spim_int_mask_t → Nat
  | nrf_spim_int_mask_t.STOPPED => 1
  | nrf_spim_int_mask_t.ENDRX => 4
  | nrf_spim_int_mask_t.END => 6
  | nrf_spim_int_mask_t.ENDTX => 8
  | nrf_spim_int_mask_t.STARTED => 19

/-- SPI master data rates (`nrf_spim_frequency_t`). -/
inductive nrf_spim_frequency_t where
  | F125K
  | F250K
  | F500K
  | F1M
  | F2M
  | F4M
  | F8M
deriving DecidableEq, Repr

/-- Modelled from the spec: the vendor `SPIM_FREQUENCY_FREQUENCY_*` raw
register codes (not linearly encoded). -/
def freqVal : nrf_spim_frequency_t → Nat
  | nrf_spim_frequency_t.F125K => 0x02000000
  | nrf_spim_frequency_t.F250K => 0x04000000
  | nrf_spim_frequency_t.F500K => 0x08000000
  | nrf_spim_frequency_t.F1M => 0x10000000
  | nrf_spim_frequency_t.F2M => 0x20000000
  | nrf_spim_frequency_t.F4M => 0x40000000
  | nrf_spim_frequency_t.F8M => 0x80000000

/-- Underlying integer of `NRF_SPIM_MODE_0` (C enum, implicit value 0). -/
def NRF_SPIM_MODE_0 : Nat := 0

/-- Underlying integer of `NRF_SPIM_MODE_1`. -/
def NRF_SPIM_MODE_1 : Nat := 1

/-- Underlying integer of `NRF_SPIM_MODE_2`. -/
def NRF_SPIM_MODE_2 : Nat := 2

/-- Underlying integer of `NRF_SPIM_MODE_3`. -/
def NRF_SPIM_MODE_3 : Nat := 3

/-- Modelled from the spec: vendor `SPIM_CONFIG_ORDER_MsbFirst` code. -/
def SPIM_CONFIG_ORDER_MsbFirst : Nat := 0

/-- Modelled from the spec: vendor `SPIM_CONFIG_ORDER_LsbFirst` code. -/
def SPIM_CONFIG_ORDER_LsbFirst : Nat := 1

/-- Underlying integer of `NRF_SPIM_BIT_ORDER_MSB_FIRST`
(= `SPIM_CONFIG_ORDER_MsbFirst`). -/
def NRF_SPIM_BIT_ORDER_MSB_FIRST : Nat := SPIM_CONFIG_ORDER_MsbFirst

/-- Underlying integer of `NRF_SPIM_BIT_ORDER_LSB_FIRST`
(= `SPIM_CONFIG_ORDER_LsbFirst`). -/
def NRF_SPIM_BIT_ORDER_LSB_FIRST : Nat := SPIM_CONFIG_ORDER_LsbFirst

/-- Modelled from the spec: vendor `SPIM_CONFIG_CPHA_Pos` (bit 1). -/
def SPIM_CONFIG_CPHA_Pos : Nat := 1

/-- Modelled from the spec: vendor `SPIM_CONFIG_CPHA_Leading` code. -/
def SPIM_CONFIG_CPHA_Leading : Nat := 0

/-- Modelled from the spec: vendor `SPIM_CONFIG_CPHA_Trailing` code. -/
def SPIM_CONFIG_CPHA_Trailing : Nat := 1

/-- Modelled from the spec: vendor `SPIM_CONFIG_CPOL_Pos` (bit 2). -/
def SPIM_CONFIG_CPOL_Pos : Nat := 2

/-- Modelled from the spec: vendor `SPIM_CONFIG_CPOL_ActiveHigh` code. -/
def SPIM_CONFIG_CPOL_ActiveHigh : Nat := 0

/-- Modelled from the spec: vendor `SPIM_CONFIG_CPOL_ActiveLow` code. -/
def SPIM_CONFIG_CPOL_ActiveLow : Nat := 1

/-- Modelled from the spec: vendor `SPIM_ENABLE_ENABLE_Pos`. -/
def SPIM_ENABLE_ENABLE_Pos : Nat := 0

/-- Modelled from the spec: vendor `SPIM_ENABLE_ENABLE_Enabled` code. -/
def SPIM_ENABLE_ENABLE_Enabled : Nat := 7

/-- Modelled from the spec: vendor `SPIM_ENABLE_ENABLE_Disabled` code. -/
def SPIM_ENABLE_ENABLE_Disabled : Nat := 0

/-! ## The accessors (`nrf_spim.h` lines 314-453)

Each accessor takes the memory and the instance base address `base`
(the C `p_spim` pointer) and returns the updated memory paired with the
ordered list of volatile accesses it performed. -/

/-- `nrf_spim_task_trigger`: `*(base + task) = 0x1UL` (line 314). -/
def nrf_spim_task_trigger (m : Mem) (base : Nat) (t : nrf_spim_task_t) :
    Mem × List Access :=
  writeReg m (base + taskOffset t) 0x1

/-- `nrf_spim_task_address_get`: `(uint32_t *)((uint8_t *)p_spim + task)`
(line 320). -/
def nrf_spim_task_address_get (base : Nat) (t : nrf_spim_task_t) : Nat :=
  base + taskOffset t

/-- `nrf_spim_event_clear`: `*(base + event) = 0x0UL` (line 326). -/
def nrf_spim_event_clear (m : Mem) (base : Nat) (e : nrf_spim_event_t) :
    Mem × List Access :=
  writeReg m (base + eventOffset e) 0x0

/-- `nrf_spim_event_check`: `(bool)*(base + event)` (line 332); the C cast
of a `uint32_t` to `bool` is true iff the value is non-zero. -/
def nrf_spim_event_check (m : Mem) (base : Nat) (e : nrf_spim_event_t) :
    Bool × List Access :=
  let r := readReg m (base + eventOffset e)
  (r.1 != 0, r.2)

/-- `nrf_spim_event_address_get` (line 338). -/
def nrf_spim_event_address_get (base : Nat) (e : nrf_spim_event_t) : Nat :=
  base + eventOffset e

/-- `nrf_spim_shorts_enable`: `p_spim->SHORTS |= mask` (line 345), a
read-modify-write of the `SHORTS` register. -/
def nrf_spim_shorts_enable (m : Mem) (base : Nat) (mask : Nat) :
    Mem × List Access :=
  let r := readReg m (base + off_SHORTS)
  let w := writeReg m (base + off_SHORTS) (r.1 ||| mask)
  (w.1, r.2 ++ w.2)

/-- `nrf_spim_shorts_disable`: `p_spim->SHORTS &= ~(mask)` (line 351). -/
def nrf_spim_shorts_disable (m : Mem) (base : Nat) (mask : Nat) :
    Mem × List Access :=
  let r := readReg m (base + off_SHORTS)
  let w := writeReg m (base + off_SHORTS) (r.1 &&& compl32 mask)
  (w.1, r.2 ++ w.2)

/-- `nrf_spim_int_enable`: `p_spim->INTENSET = mask` (line 357), a plain
store, no read-modify-write. -/
def nrf_spim_int_enable (m : Mem) (base : Nat) (mask : Nat) :
    Mem × List Access :=
  writeReg m (base + off_INTENSET) mask

/-- `nrf_spim_int_disable`: `p_spim->INTENCLR = mask` (line 363), a plain
store, no read-modify-write. -/
def nrf_spim_int_disable (m : Mem) (base : Nat) (mask : Nat) :
    Mem × List Access :=
  writeReg m (base + off_INTENCLR) mask

/-- `nrf_spim_int_enable_check`: `(bool)(p_spim->INTENSET & spim_int)`
(line 369). -/
def nrf_spim_int_enable_check (m : Mem) (base : Nat)
    (b : nrf_spim_int_mask_t) : Bool × List Access :=
  let r := readReg m (base + off_INTENSET)
  ((r.1 &&& intMaskVal b) != 0, r.2)

/-- `nrf_spim_enable`: store the `Enabled` code into `ENABLE` (line 375). -/
def nrf_spim_enable (m : Mem) (base : Nat) : Mem × List Access :=
  writeReg m (base + off_ENABLE)
    (SPIM_ENABLE_ENABLE_Enabled <<< SPIM_ENABLE_ENABLE_Pos)

/-- `nrf_spim_disable`: store the `Disabled` code into `ENABLE` (line 380). -/
def nrf_spim_disable (m : Mem) (base : Nat) : Mem × List Access :=
  writeReg m (base + off_ENABLE)
    (SPIM_ENABLE_ENABLE_Disabled <<< SPIM_ENABLE_ENABLE_Pos)

/-- `nrf_spim_pins_set`: three independent stores to `PSEL.SCK`,
`PSEL.MOSI`, `PSEL.MISO`, in that order (line 385). -/
def nrf_spim_pins_set (m : Mem) (base : Nat)
    (sck_pin mosi_pin miso_pin : Nat) : Mem × List Access :=
  let w1 := writeReg m (base + off_PSEL_SCK) sck_pin
  let w2 := writeReg w1.1 (base + off_PSEL_MOSI) mosi_pin
  let w3 := writeReg w2.1 (base + off_PSEL_MISO) miso_pin
  (w3.1, w1.2 ++ w2.2 ++ w3.2)

/-- `nrf_spim_frequency_set`: `p_spim->FREQUENCY = frequency` (line 395). -/
def nrf_spim_frequency_set (m : Mem) (base : Nat)
    (frequency : nrf_spim_frequency_t) : Mem × List Access :=
  writeReg m (base + off_FREQUENCY) (freqVal frequency)

/-- `nrf_spim_tx_buffer_set`: store the buffer address into `TXD.PTR` and
the 8-bit length into `TXD.MAXCNT` (line 401); the length parameter is
`uint8_t`, modelled as `Fin 256`. -/
def nrf_spim_tx_buffer_set (m : Mem) (base : Nat) (p_buffer : Nat)
    (length : Fin 256) : Mem × List Access :=
  let w1 := writeReg m (base + off_TXD_PTR) p_buffer
  let w2 := writeReg w1.1 (base + off_TXD_MAXCNT) length.val
  (w2.1, w1.2 ++ w2.2)

/-- `nrf_spim_rx_buffer_set`: same for `RXD.PTR` / `RXD.MAXCNT` (line 409). -/
def nrf_spim_rx_buffer_set (m : Mem) (base : Nat) (p_buffer : Nat)
    (length : Fin 256) : Mem × List Access :=
  let w1 := writeReg m (base + off_RXD_PTR) p_buffer
  let w2 := writeReg w1.1 (base + off_RXD_MAXCNT) length.val
  (w2.1, w1.2 ++ w2.2)

/-- `nrf_spim_configure` (line 417): compose the `CONFIG` value from the
bit order and the mode switch, then store it.  The C `switch` puts
`default:` on the same branch as `case NRF_SPIM_MODE_0:`, so both
parameters are taken at their underlying integer type, and any mode other
than 1, 2, 3 selects the MODE_0 branch. -/
def nrf_spim_configure (m : Mem) (base : Nat)
    (spi_mode spi_bit_order : Nat) : Mem × List Access :=
  let config :=
    if spi_bit_order = NRF_SPIM_BIT_ORDER_MSB_FIRST then
      SPIM_CONFIG_ORDER_MsbFirst
    else
      SPIM_CONFIG_ORDER_LsbFirst
  let config :=
    if spi_mode = NRF_SPIM_MODE_1 then
      config ||| ((SPIM_CONFIG_CPOL_ActiveHigh <<< SPIM_CONFIG_CPOL_Pos) |||
                  (SPIM_CONFIG_CPHA_Trailing <<< SPIM_CONFIG_CPHA_Pos))
    else if spi_mode = NRF_SPIM_MODE_2 then
      config ||| ((SPIM_CONFIG_CPOL_ActiveLow <<< SPIM_CONFIG_CPOL_Pos) |||
                  (SPIM_CONFIG_CPHA_Leading <<< SPIM_CONFIG_CPHA_Pos))
    else if spi_mode = NRF_SPIM_MODE_3 then
      config ||| ((SPIM_CONFIG_CPOL_ActiveLow <<< SPIM_CONFIG_CPOL_Pos) |||
                  (SPIM_CONFIG_CPHA_Trailing <<< SPIM_CONFIG_CPHA_Pos))
    else
      config ||| ((SPIM_CONFIG_CPOL_ActiveHigh <<< SPIM_CONFIG_CPOL_Pos) |||
                  (SPIM_CONFIG_CPHA_Leading <<< SPIM_CONFIG_CPHA_Pos))
  writeReg m (base + off_CONFIG) config

/-- `nrf_spim_orc_set`: `p_spim->ORC = orc` (line 449); `orc` is `uint8_t`. -/
def nrf_spim_orc_set (m : Mem) (base : Nat) (orc : Fin 256) :
    Mem × List Access :=
  writeReg m (base + off_ORC) orc.val

/-- The all-zero register block, used as a concrete test memory. -/
def memZero : Mem := fun _ => 0

/-- A register block with every word holding 1, used as a concrete test
memory with pre-existing register contents. -/
def memOne : Mem := fun _ => 1

/-- The value the `CONFIG` register holds after `nrf_spim_configure`. -/
def configResult (m : Mem) (base spi_mode spi_bit_order : Nat) : Nat :=
  (nrf_spim_configure m base spi_mode spi_bit_order).1 (base + off_CONFIG)

/-! ## Hardware simulation of the interrupt-enable registers

`INTENSET` and `INTENCLR` are hardware set/clear views of one underlying
enabled-interrupt state: a write to `INTENSET` ORs the written mask into
the state, a write to `INTENCLR` clears the written mask's bits, and a
read of `INTENSET` returns the state. -/

/-- One software interrupt-control operation, issued through the HAL. -/
inductive IntOp where
  | en (mask : Nat)
  | dis (mask : Nat)
deriving DecidableEq, Repr

/-- Hardware interpretation of one volatile access on the enabled-interrupt
state `s`: `INTENSET` writes OR in, `INTENCLR` writes AND-NOT, any other
access leaves the state unchanged. -/
def applyIntenHW (base : Nat) (s : Nat) (a : Access) : Nat :=
  match a with
  | Access.write addr v =>
      if addr = base + off_INTENSET then (s ||| v) % 2 ^ 32
      else if addr = base + off_INTENCLR then s &&& compl32 v
      else s
  | Access.read _ _ => s

/-- Run one interrupt-control op: take the HAL accessor's access trace and
fold it through the hardware interpretation. -/
def runIntOp (base : Nat) (s : Nat) : IntOp → Nat
  | IntOp.en mask => ((nrf_spim_int_enable memZero base mask).2).foldl (applyIntenHW base) s
  | IntOp.dis mask => ((nrf_spim_int_disable memZero base mask).2).foldl (applyIntenHW base) s

/-- Run a list of interrupt-control ops from state `s`. -/
def runIntOps (base : Nat) (s : Nat) (ops : List IntOp) : Nat :=
  ops.foldl (runIntOp base) s

/-- `nrf_spim_int_enable_check` under the hardware simulation: the HAL
accessor run on a memory whose `INTENSET` location returns the
enabled-interrupt state `s`. -/
def hwIntCheck (base : Nat) (s : Nat) (b : nrf_spim_int_mask_t) : Bool :=
  (nrf_spim_int_enable_check
    (fun a => if a = base + off_INTENSET then s else 0) base b).1

/-! ## Helper lemmas -/

theorem writeReg_fst_eq (m : Mem) (addr v : Nat) :
    (writeReg m addr v).1 addr = v % 2 ^ 32 := by
  simp [writeReg]

theorem writeReg_fst_ne (m : Mem) (addr v a : Nat) (h : a ≠ addr) :
    (writeReg m addr v).1 a = m a := by
  simp [writeReg, h]

/-! ## Claim theorems -/

/-- Claim C4: for every task, `nrf_spim_task_trigger` writes exactly `0x1`
to the 32-bit register at byte offset `taskOffset t` from the instance
base and leaves every other register unchanged. -/
theorem task_trigger_writes_one (m : Mem) (base : Nat) (t : nrf_spim_task_t) :
    (nrf_spim_task_trigger m base t).1 (base + taskOffset t) = 0x1 ∧
    ∀ a : Nat, a ≠ base + taskOffset t →
      (nrf_spim_task_trigger m base t).1 a = m a := by
  refine ⟨?_, ?_⟩
  · simp [nrf_spim_task_trigger, writeReg]
  · intro a ha
    simp [nrf_spim_task_trigger, writeReg, ha]

/-- Claim C4 witness: triggering `START` on the all-zero block writes 1 at
its offset and leaves the `STOP` register untouched. -/
theorem task_trigger_writes_one_witness :
    (nrf_spim_task_trigger memZero 0 nrf_spim_task_t.START).1
      (0 + taskOffset nrf_spim_task_t.START) = 0x1 ∧
    (nrf_spim_task_trigger memZero 0 nrf_spim_task_t.START).1
      (0 + taskOffset nrf_spim_task_t.STOP) =
      memZero (0 + taskOffset nrf_spim_task_t.STOP) :=
  ⟨(task_trigger_writes_one memZero 0 nrf_spim_task_t.START).1,
   (task_trigger_writes_one memZero 0 nrf_spim_task_t.START).2
     (0 + taskOffset nrf_spim_task_t.STOP) (by decide)⟩

/-- Claim C5: for every event, `nrf_spim_event_clear` writes exactly 0 to
the event's register, and `nrf_spim_event_check` returns true iff that
register holds a non-zero value (any non-zero value, e.g. `0xFFFFFFFF`). -/
theorem event_clear_check_spec (m : Mem) (base : Nat) (e : nrf_spim_event_t) :
    (nrf_spim_event_clear m base e).1 (base + eventOffset e) = 0 ∧
    ((nrf_spim_event_check m base e).1 = true ↔ m (base + eventOffset e) ≠ 0) := by
  refine ⟨?_, ?_⟩
  · simp [nrf_spim_event_clear, writeReg]
  · simp [nrf_spim_event_check, readReg]

/-- Claim C6: `nrf_spim_pins_set` assigns `PSEL.SCK`, `PSEL.MOSI` and
`PSEL.MISO` independently to its three arguments. -/
theorem pins_set_independent (m : Mem) (base sck mosi miso : Nat)
    (hs : sck < 2 ^ 32) (hmo : mosi < 2 ^ 32) (hmi : miso < 2 ^ 32) :
    (nrf_spim_pins_set m base sck mosi miso).1 (base + off_PSEL_SCK) = sck ∧
    (nrf_spim_pins_set m base sck mosi miso).1 (base + off_PSEL_MOSI) = mosi ∧
    (nrf_spim_pins_set m base sck mosi miso).1 (base + off_PSEL_MISO) = miso := by
  unfold nrf_spim_pins_set
  refine ⟨?_, ?_, ?_⟩
  · rw [writeReg_fst_ne _ _ _ _ (by simp [off_PSEL_MISO, off_PSEL_SCK]),
        writeReg_fst_ne _ _ _ _ (by simp [off_PSEL_MOSI, off_PSEL_SCK]),
        writeReg_fst_eq, Nat.mod_eq_of_lt hs]
  · rw [writeReg_fst_ne _ _ _ _ (by simp [off_PSEL_MISO, off_PSEL_MOSI]),
        writeReg_fst_eq, Nat.mod_eq_of_lt hmo]
  · rw [writeReg_fst_eq, Nat.mod_eq_of_lt hmi]

/-- Claim C6 witness: `pins_set(NOT_CONNECTED, 5, 6)` leaves `PSEL.SCK` at
the all-ones sentinel and `PSEL.MOSI`/`PSEL.MISO` at 5/6. -/
theorem pins_set_independent_witness :
    (nrf_spim_pins_set memZero 0 NRF_SPIM_PIN_NOT_CONNECTED 5 6).1
      (0 + off_PSEL_SCK) = NRF_SPIM_PIN_NOT_CONNECTED ∧
    (nrf_spim_pins_set memZero 0 NRF_SPIM_PIN_NOT_CONNECTED 5 6).1
      (0 + off_PSEL_MOSI) = 5 ∧
    (nrf_spim_pins_set memZero 0 NRF_SPIM_PIN_NOT_CONNECTED 5 6).1
      (0 + off_PSEL_MISO) = 6 :=
  pins_set_independent memZero 0 NRF_SPIM_PIN_NOT_CONNECTED 5 6
    (by decide) (by decide) (by decide)

/-- Claim C7: `nrf_spim_tx_buffer_set` writes the buffer address into
`TXD.PTR` and the length into `TXD.MAXCNT`; `nrf_spim_rx_buffer_set` does
the same for `RXD.PTR`/`RXD.MAXCNT`; the length parameter's type (`Fin
256`, the `uint8_t` of the source) makes any length above 255
unrepresentable, so the stored `MAXCNT` is always at most 255. -/
theorem buffer_set_spec (m : Mem) (base p : Nat) (hp : p < 2 ^ 32)
    (n nr : Fin 256) :
    (nrf_spim_tx_buffer_set m base p n).1 (base + off_TXD_PTR) = p ∧
    (nrf_spim_tx_buffer_set m base p n).1 (base + off_TXD_MAXCNT) = n.val ∧
    (nrf_spim_rx_buffer_set m base p nr).1 (base + off_RXD_PTR) = p ∧
    (nrf_spim_rx_buffer_set m base p nr).1 (base + off_RXD_MAXCNT) = nr.val ∧
    (nrf_spim_tx_buffer_set m base p n).1 (base + off_TXD_MAXCNT) ≤ 255 ∧
    (nrf_spim_rx_buffer_set m base p nr).1 (base + off_RXD_MAXCNT) ≤ 255 := by
  have hn : n.val < 2 ^ 32 := lt_trans n.isLt (by norm_num)
  have hnr : nr.val < 2 ^ 32 := lt_trans nr.isLt (by norm_num)
  unfold nrf_spim_tx_buffer_set nrf_spim_rx_buffer_set
  have htx1 := writeReg_fst_ne
    (writeReg m (base + off_TXD_PTR) p).1 (base + off_TXD_MAXCNT) n.val
    (base + off_TXD_PTR) (by simp [off_TXD_PTR, off_TXD_MAXCNT])
  have hrx1 := writeReg_fst_ne
    (writeReg m (base + off_RXD_PTR) p).1 (base + off_RXD_MAXCNT) nr.val
    (base + off_RXD_PTR) (by simp [off_RXD_PTR, off_RXD_MAXCNT])
  refine ⟨?_, ?_, ?_, ?_, ?_, ?_⟩
  · rw [htx1, writeReg_fst_eq, Nat.mod_eq_of_lt hp]
  · rw [writeReg_fst_eq, Nat.mod_eq_of_lt hn]
  · rw [hrx1, writeReg_fst_eq, Nat.mod_eq_of_lt hp]
  · rw [writeReg_fst_eq, Nat.mod_eq_of_lt hnr]
  · rw [writeReg_fst_eq, Nat.mod_eq_of_lt hn]
    omega
  · rw [writeReg_fst_eq, Nat.mod_eq_of_lt hnr]
    omega

/-- Claim C7 witness: `tx_buffer_set(buf = 0x20000000, 200)` stores the
address in `TXD.PTR` and 200 in `TXD.MAXCNT` (and likewise for RX). -/
theorem buffer_set_spec_witness :
    (nrf_spim_tx_buffer_set memZero 0 0x20000000 200).1 (0 + off_TXD_PTR) =
      0x20000000 ∧
    (nrf_spim_tx_buffer_set memZero 0 0x20000000 200).1 (0 + off_TXD_MAXCNT) =
      (200 : Fin 256).val ∧
    (nrf_spim_rx_buffer_set memZero 0 0x20000000 17).1 (0 + off_RXD_PTR) =
      0x20000000 ∧
    (nrf_spim_rx_buffer_set memZero 0 0x20000000 17).1 (0 + off_RXD_MAXCNT) =
      (17 : Fin 256).val ∧
    (nrf_spim_tx_buffer_set memZero 0 0x20000000 200).1 (0 + off_TXD_MAXCNT) ≤
      255 ∧
    (nrf_spim_rx_buffer_set memZero 0 0x20000000 17).1 (0 + off_RXD_MAXCNT) ≤
      255 :=
  buffer_set_spec memZero 0 0x20000000 (by decide) 200 17

/-- Claim C9: the address returned by `nrf_spim_task_address_get` is
exactly the address `nrf_spim_task_trigger` writes to (with value 1), and
the address returned by `nrf_spim_event_address_get` is exactly the
address `nrf_spim_event_clear` writes (value 0) and
`nrf_spim_event_check` reads. -/
theorem address_get_matches_accesses (m : Mem) (base : Nat)
    (t : nrf_spim_task_t) (e : nrf_spim_event_t) :
    (nrf_spim_task_trigger m base t).2 =
      [Access.write (nrf_spim_task_address_get base t) 0x1] ∧
    (nrf_spim_event_clear m base e).2 =
      [Access.write (nrf_spim_event_address_get base e) 0x0] ∧
    (nrf_spim_event_check m base e).2 =
      [Access.read (nrf_spim_event_address_get base e)
        (m (nrf_spim_event_address_get base e))] ∧
    nrf_spim_task_address_get base t = base + taskOffset t ∧
    nrf_spim_event_address_get base e = base + eventOffset e := by
  refine ⟨?_, ?_, ?_, rfl, rfl⟩
  · simp [nrf_spim_task_trigger, writeReg, nrf_spim_task_address_get]
  · simp [nrf_spim_event_clear, writeReg, nrf_spim_event_address_get]
  · simp [nrf_spim_event_check, readReg, nrf_spim_event_address_get]

/-- Claim C8 counterexample: `nrf_spim_pins_set` performs three register
accesses in one invocation, not exactly one, refuting the claim at the
concrete input `pins_set(NOT_CONNECTED, 5, 6)` on the all-zero block. -/
theorem pins_set_not_single_access :
    ¬ (nrf_spim_pins_set memZero 0 NRF_SPIM_PIN_NOT_CONNECTED 5 6).2.length = 1 := by
  decide

/-- Claim C8 (amended): each accessor performs a fixed number of register
accesses per invocation: one for `task_trigger`, `event_clear`,
`event_check`, `int_enable`, `int_disable`, `int_enable_check`, `enable`,
`disable`, `frequency_set`, `configure` and `orc_set`; two (one read and
one write of `SHORTS`) for `shorts_enable` and `shorts_disable`; three
writes for `pins_set`; and two writes for `tx_buffer_set` and
`rx_buffer_set`. -/
theorem accessor_access_counts (m : Mem) (base x y z mode order : Nat)
    (t : nrf_spim_task_t) (e : nrf_spim_event_t) (b : nrf_spim_int_mask_t)
    (f : nrf_spim_frequency_t) (n c : Fin 256) :
    (nrf_spim_task_trigger m base t).2.length = 1 ∧
    (nrf_spim_event_clear m base e).2.length = 1 ∧
    (nrf_spim_event_check m base e).2.length = 1 ∧
    (nrf_spim_shorts_enable m base x).2.length = 2 ∧
    (nrf_spim_shorts_disable m base x).2.length = 2 ∧
    (nrf_spim_int_enable m base x).2.length = 1 ∧
    (nrf_spim_int_disable m base x).2.length = 1 ∧
    (nrf_spim_int_enable_check m base b).2.length = 1 ∧
    (nrf_spim_enable m base).2.length = 1 ∧
    (nrf_spim_disable m base).2.length = 1 ∧
    (nrf_spim_pins_set m base x y z).2.length = 3 ∧
    (nrf_spim_frequency_set m base f).2.length = 1 ∧
    (nrf_spim_tx_buffer_set m base x n).2.length = 2 ∧
    (nrf_spim_rx_buffer_set m base x n).2.length = 2 ∧
    (nrf_spim_configure m base mode order).2.length = 1 ∧
    (nrf_spim_orc_set m base c).2.length = 1 := by
  refine ⟨rfl, rfl, rfl, rfl, rfl, rfl, rfl, rfl, rfl, rfl, rfl, rfl, rfl,
    rfl, ?_, rfl⟩
  unfold nrf_spim_configure writeReg
  dsimp only
  split <;> rfl

/-- Claim C1: all eight (mode, bit-order) combinations of
`nrf_spim_configure` store exactly the documented bit-order / CPOL / CPHA
pattern in `CONFIG`, and every mode value outside 0..3 stores the same
value as `MODE_0` with the same bit order. -/
theorem configure_bit_patterns (m : Mem) (base : Nat) :
    (configResult m base NRF_SPIM_MODE_0 NRF_SPIM_BIT_ORDER_MSB_FIRST =
      (SPIM_CONFIG_ORDER_MsbFirst |||
       (SPIM_CONFIG_CPOL_ActiveHigh <<< SPIM_CONFIG_CPOL_Pos) |||
       (SPIM_CONFIG_CPHA_Leading <<< SPIM_CONFIG_CPHA_Pos)) ∧
     configResult m base NRF_SPIM_MODE_1 NRF_SPIM_BIT_ORDER_MSB_FIRST =
      (SPIM_CONFIG_ORDER_MsbFirst |||
       (SPIM_CONFIG_CPOL_ActiveHigh <<< SPIM_CONFIG_CPOL_Pos) |||
       (SPIM_CONFIG_CPHA_Trailing <<< SPIM_CONFIG_CPHA_Pos)) ∧
     configResult m base NRF_SPIM_MODE_2 NRF_SPIM_BIT_ORDER_MSB_FIRST =
      (SPIM_CONFIG_ORDER_MsbFirst |||
       (SPIM_CONFIG_CPOL_ActiveLow <<< SPIM_CONFIG_CPOL_Pos) |||
       (SPIM_CONFIG_CPHA_Leading <<< SPIM_CONFIG_CPHA_Pos)) ∧
     configResult m base NRF_SPIM_MODE_3 NRF_SPIM_BIT_ORDER_MSB_FIRST =
      (SPIM_CONFIG_ORDER_MsbFirst |||
       (SPIM_CONFIG_CPOL_ActiveLow <<< SPIM_CONFIG_CPOL_Pos) |||
       (SPIM_CONFIG_CPHA_Trailing <<< SPIM_CONFIG_CPHA_Pos)) ∧
     configResult m base NRF_SPIM_MODE_0 NRF_SPIM_BIT_ORDER_LSB_FIRST =
      (SPIM_CONFIG_ORDER_LsbFirst |||
       (SPIM_CONFIG_CPOL_ActiveHigh <<< SPIM_CONFIG_CPOL_Pos) |||
       (SPIM_CONFIG_CPHA_Leading <<< SPIM_CONFIG_CPHA_Pos)) ∧
     configResult m base NRF_SPIM_MODE_1 NRF_SPIM_BIT_ORDER_LSB_FIRST =
      (SPIM_CONFIG_ORDER_LsbFirst |||
       (SPIM_CONFIG_CPOL_ActiveHigh <<< SPIM_CONFIG_CPOL_Pos) |||
       (SPIM_CONFIG_CPHA_Trailing <<< SPIM_CONFIG_CPHA_Pos)) ∧
     configResult m base NRF_SPIM_MODE_2 NRF_SPIM_BIT_ORDER_LSB_FIRST =
      (SPIM_CONFIG_ORDER_LsbFirst |||
       (SPIM_CONFIG_CPOL_ActiveLow <<< SPIM_CONFIG_CPOL_Pos) |||
       (SPIM_CONFIG_CPHA_Leading <<< SPIM_CONFIG_CPHA_Pos)) ∧
     configResult m base NRF_SPIM_MODE_3 NRF_SPIM_BIT_ORDER_LSB_FIRST =
      (SPIM_CONFIG_ORDER_LsbFirst |||
       (SPIM_CONFIG_CPOL_ActiveLow <<< SPIM_CONFIG_CPOL_Pos) |||
       (SPIM_CONFIG_CPHA_Trailing <<< SPIM_CONFIG_CPHA_Pos))) ∧
    (∀ mode order : Nat, mode ≠ NRF_SPIM_MODE_0 → mode ≠ NRF_SPIM_MODE_1 →
      mode ≠ NRF_SPIM_MODE_2 → mode ≠ NRF_SPIM_MODE_3 →
      configResult m base mode order =
        configResult m base NRF_SPIM_MODE_0 order) := by
  constructor
  · refine ⟨?_, ?_, ?_, ?_, ?_, ?_, ?_, ?_⟩ <;>
      simp [configResult, nrf_spim_configure, writeReg, NRF_SPIM_MODE_0,
        NRF_SPIM_MODE_1, NRF_SPIM_MODE_2, NRF_SPIM_MODE_3,
        NRF_SPIM_BIT_ORDER_MSB_FIRST, NRF_SPIM_BIT_ORDER_LSB_FIRST,
        SPIM_CONFIG_ORDER_MsbFirst, SPIM_CONFIG_ORDER_LsbFirst,
        SPIM_CONFIG_CPOL_ActiveHigh, SPIM_CONFIG_CPOL_ActiveLow,
        SPIM_CONFIG_CPOL_Pos, SPIM_CONFIG_CPHA_Leading,
        SPIM_CONFIG_CPHA_Trailing, SPIM_CONFIG_CPHA_Pos]
  · intro mode order h0 h1 h2 h3
    simp only [configResult, nrf_spim_configure]
    rw [if_neg h1, if_neg h2, if_neg h3,
        if_neg (by decide : ¬ NRF_SPIM_MODE_0 = NRF_SPIM_MODE_1),
        if_neg (by decide : ¬ NRF_SPIM_MODE_0 = NRF_SPIM_MODE_2),
        if_neg (by decide : ¬ NRF_SPIM_MODE_0 = NRF_SPIM_MODE_3)]

/-- Claim C1 witness: the out-of-range mode value 4 with LSB-first bit
order stores the same `CONFIG` value as `MODE_0` with LSB-first. -/
theorem configure_bit_patterns_witness :
    configResult memZero 0 4 NRF_SPIM_BIT_ORDER_LSB_FIRST =
      configResult memZero 0 NRF_SPIM_MODE_0 NRF_SPIM_BIT_ORDER_LSB_FIRST :=
  (configure_bit_patterns memZero 0).2 4 NRF_SPIM_BIT_ORDER_LSB_FIRST
    (by decide) (by decide) (by decide) (by decide)

/-- Claim C10: `nrf_spim_configure` overwrites `CONFIG` with a freshly
composed value: the stored value is below 8 (every bit outside the
bit-order, CPOL and CPHA fields at bits 0..2 is 0) and does not depend on
the register block's previous contents. -/
theorem configure_overwrites_config (m m2 : Mem) (base mode order : Nat) :
    configResult m base mode order < 8 ∧
    configResult m base mode order = configResult m2 base mode order := by
  constructor
  · simp only [configResult, nrf_spim_configure, writeReg, if_true]
    split_ifs <;> decide
  · simp [configResult, nrf_spim_configure, writeReg]

/-- Claim C2 counterexample: on a block whose `SHORTS` register already
holds 1, enabling then disabling mask 1 leaves `SHORTS` at 0, not at its
pre-enable value 1: the round trip clears pre-existing mask bits. -/
theorem shorts_round_trip_fails_on_overlap :
    (nrf_spim_shorts_disable (nrf_spim_shorts_enable memOne 0 1).1 0 1).1
      (0 + off_SHORTS) ≠ memOne (0 + off_SHORTS) := by
  decide

/-- Claim C2 (amended): `shorts_enable(mask)` followed by
`shorts_disable(mask)` restores the `SHORTS` register to its pre-enable
value whenever no bit of the mask was already set in `SHORTS`
(`SHORTS &&& mask = 0`); a pre-existing bit inside the mask is cleared by
the round trip. -/
theorem shorts_enable_disable_round_trip (m : Mem) (base mask : Nat)
    (hv : m (base + off_SHORTS) < 2 ^ 32) (hmask : mask < 2 ^ 32)
    (hdisj : m (base + off_SHORTS) &&& mask = 0) :
    (nrf_spim_shorts_disable (nrf_spim_shorts_enable m base mask).1 base
      mask).1 (base + off_SHORTS) = m (base + off_SHORTS) := by
  have hgoal : (nrf_spim_shorts_disable (nrf_spim_shorts_enable m base mask).1
      base mask).1 (base + off_SHORTS) =
      (((m (base + off_SHORTS) ||| mask) % 2 ^ 32) &&& compl32 mask) %
        2 ^ 32 := by
    simp [nrf_spim_shorts_enable, nrf_spim_shorts_disable, readReg, writeReg]
  rw [hgoal]
  have h32 : (4294967295 : Nat) = 2 ^ 32 - 1 := by norm_num
  apply Nat.eq_of_testBit_eq
  intro i
  have hd : ((m (base + off_SHORTS)).testBit i && mask.testBit i) = false := by
    have h0 := congrArg (fun x => Nat.testBit x i) hdisj
    simpa only [Nat.testBit_land, Nat.zero_testBit] using h0
  by_cases hi : i < 32
  · have hdec : (decide (i < 32)) = true := decide_eq_true hi
    simp only [Nat.testBit_mod_two_pow, Nat.testBit_land, Nat.testBit_lor,
      compl32, Nat.testBit_xor, h32, Nat.testBit_two_pow_sub_one,
      Nat.mod_eq_of_lt hmask, hdec, Bool.true_and, Bool.true_xor]
    cases hvb : (m (base + off_SHORTS)).testBit i <;>
      cases hmb : mask.testBit i <;> simp_all
  · have hdec : (decide (i < 32)) = false := decide_eq_false hi
    have hv0 : (m (base + off_SHORTS)).testBit i = false :=
      Nat.testBit_eq_false_of_lt
        (lt_of_lt_of_le hv (Nat.pow_le_pow_right (by norm_num)
          (le_of_not_lt hi)))
    simp only [Nat.testBit_mod_two_pow, hdec, Bool.false_and, hv0]

/-- Claim C2 witness: on the all-zero block the enable/disable round trip
with the END-START shortcut mask restores `SHORTS` to 0. -/
theorem shorts_enable_disable_round_trip_witness :
    (nrf_spim_shorts_disable (nrf_spim_shorts_enable memZero 0 0x20000).1 0
      0x20000).1 (0 + off_SHORTS) = memZero (0 + off_SHORTS) :=
  shorts_enable_disable_round_trip memZero 0 0x20000 (by decide) (by decide)
    (by decide)

/-! ### Interrupt enable/disable lemmas (hardware simulation) -/

theorem intMaskVal_eq_two_pow (b : nrf_spim_int_mask_t) :
    intMaskVal b = 2 ^ intMaskPos b := by
  cases b <;> rfl

theorem intMaskPos_lt_32 (b : nrf_spim_int_mask_t) : intMaskPos b < 32 := by
  cases b <;> decide

theorem hwIntCheck_eq (base s : Nat) (b : nrf_spim_int_mask_t) :
    hwIntCheck base s b = ((s &&& intMaskVal b) != 0) := by
  simp [hwIntCheck, nrf_spim_int_enable_check, readReg]

theorem runIntOp_en_eq (base s mask : Nat) :
    runIntOp base s (IntOp.en mask) = (s ||| mask % 2 ^ 32) % 2 ^ 32 := by
  simp [runIntOp, nrf_spim_int_enable, writeReg, applyIntenHW]

theorem runIntOp_dis_eq (base s mask : Nat) :
    runIntOp base s (IntOp.dis mask) = s &&& compl32 (mask % 2 ^ 32) := by
  simp [runIntOp, nrf_spim_int_disable, writeReg, applyIntenHW,
    off_INTENSET, off_INTENCLR]

theorem runIntOp_preserves_bit (base p : Nat) (hp : p < 32) (op : IntOp)
    (hop : ∀ mk, op = IntOp.dis mk → mk.testBit p = false) (s : Nat)
    (hs : s.testBit p = true) : (runIntOp base s op).testBit p = true := by
  have hdec : (decide (p < 32)) = true := decide_eq_true hp
  cases op with
  | en mk =>
      rw [runIntOp_en_eq]
      simp only [Nat.testBit_mod_two_pow, Nat.testBit_lor, hdec,
        Bool.true_and, hs, Bool.true_or]
  | dis mk =>
      have hmk : mk.testBit p = false := hop mk rfl
      rw [runIntOp_dis_eq]
      have h32 : (4294967295 : Nat) = 2 ^ 32 - 1 := by norm_num
      simp only [compl32, h32, Nat.testBit_land, Nat.testBit_xor,
        Nat.testBit_two_pow_sub_one, Nat.testBit_mod_two_pow, hdec,
        Bool.true_and, hs, hmk, Bool.xor_false, Bool.and_true]

theorem runIntOps_preserves_bit (base p : Nat) (hp : p < 32) :
    ∀ ops : List IntOp,
      (∀ op ∈ ops, ∀ mk, op = IntOp.dis mk → mk.testBit p = false) →
      ∀ s : Nat, s.testBit p = true →
        (runIntOps base s ops).testBit p = true := by
  intro ops
  induction ops with
  | nil =>
      intro _ s hs
      simpa [runIntOps] using hs
  | cons op rest ih =>
      intro hops s hs
      have h1 := runIntOp_preserves_bit base p hp op
        (fun mk he => hops op (List.mem_cons_self op rest) mk he) s hs
      have h2 := ih (fun o ho mk he => hops o (List.mem_cons_of_mem op ho) mk he)
        (runIntOp base s op) h1
      simpa [runIntOps] using h2

theorem land_ne_zero_of_testBit {x b2 : Nat} (p : Nat)
    (hx : x.testBit p = true) (hb : b2.testBit p = true) : x &&& b2 ≠ 0 := by
  intro h0
  have := congrArg (fun y => Nat.testBit y p) h0
  simp [Nat.testBit_land, hx, hb] at this

theorem dis_clears_mask (base s : Nat) (b : nrf_spim_int_mask_t) :
    runIntOp base s (IntOp.dis (intMaskVal b)) &&& intMaskVal b = 0 := by
  rw [runIntOp_dis_eq, intMaskVal_eq_two_pow]
  have h32 : (4294967295 : Nat) = 2 ^ 32 - 1 := by norm_num
  apply Nat.eq_of_testBit_eq
  intro i
  simp only [compl32, h32, Nat.testBit_land, Nat.testBit_xor,
    Nat.testBit_two_pow_sub_one, Nat.testBit_mod_two_pow,
    Nat.testBit_two_pow, Nat.zero_testBit]
  by_cases hip : intMaskPos b = i
  · subst hip
    have hdec : (decide (intMaskPos b < 32)) = true :=
      decide_eq_true (intMaskPos_lt_32 b)
    have hpp : (decide (intMaskPos b = intMaskPos b)) = true :=
      decide_eq_true rfl
    simp only [hdec, hpp, Bool.true_and, Bool.and_true, Bool.true_xor,
      Bool.not_true, Bool.and_false, Bool.false_and]
    simp
  · have hpi : (decide (intMaskPos b = i)) = false := decide_eq_false hip
    simp only [hpi, Bool.and_false]

/-- Claim C3: `nrf_spim_int_enable` writes the mask directly to `INTENSET`
and `nrf_spim_int_disable` writes it directly to `INTENCLR` — each a
single plain store, no read-modify-write; and under the hardware
simulation (an `INTENSET` write ORs into the enabled-interrupt state, an
`INTENCLR` write ANDs-NOT into it), `nrf_spim_int_enable_check` returns
true after the bit is enabled and not subsequently disabled, and false
after the bit is disabled. -/
theorem int_enable_disable_spec (m : Mem) (base mask s : Nat)
    (b : nrf_spim_int_mask_t) (ops : List IntOp)
    (hops : ∀ op ∈ ops, ∀ mk, op = IntOp.dis mk → mk &&& intMaskVal b = 0) :
    (nrf_spim_int_enable m base mask).2 =
      [Access.write (base + off_INTENSET) (mask % 2 ^ 32)] ∧
    (nrf_spim_int_disable m base mask).2 =
      [Access.write (base + off_INTENCLR) (mask % 2 ^ 32)] ∧
    hwIntCheck base
      (runIntOps base (runIntOp base s (IntOp.en (intMaskVal b))) ops) b =
      true ∧
    hwIntCheck base (runIntOp base s (IntOp.dis (intMaskVal b))) b = false := by
  refine ⟨rfl, rfl, ?_, ?_⟩
  · have hp : intMaskPos b < 32 := intMaskPos_lt_32 b
    have hdec : (decide (intMaskPos b < 32)) = true := decide_eq_true hp
    have hpp : (decide (intMaskPos b = intMaskPos b)) = true :=
      decide_eq_true rfl
    have hen : (runIntOp base s (IntOp.en (intMaskVal b))).testBit
        (intMaskPos b) = true := by
      rw [runIntOp_en_eq, intMaskVal_eq_two_pow]
      simp only [Nat.testBit_mod_two_pow, Nat.testBit_lor,
        Nat.testBit_two_pow, hdec, hpp, Bool.true_and, Bool.and_true,
        Bool.or_true]
      simp
    have hops2 : ∀ op ∈ ops, ∀ mk, op = IntOp.dis mk →
        mk.testBit (intMaskPos b) = false := by
      intro op ho mk he
      have h0 := hops op ho mk he
      have h1 := congrArg (fun y => Nat.testBit y (intMaskPos b)) h0
      rw [intMaskVal_eq_two_pow] at h1
      simp only [Nat.testBit_land, Nat.testBit_two_pow, Nat.zero_testBit,
        hpp, Bool.and_true] at h1
      simpa using h1
    have hbit := runIntOps_preserves_bit base (intMaskPos b) hp ops hops2 _ hen
    rw [hwIntCheck_eq]
    have hb2 : (intMaskVal b).testBit (intMaskPos b) = true := by
      rw [intMaskVal_eq_two_pow]
      simp [Nat.testBit_two_pow]
    simpa using land_ne_zero_of_testBit (intMaskPos b) hbit hb2
  · rw [hwIntCheck_eq, dis_clears_mask]
    rfl

/-- Claim C3 witness: with base 0, enabling the STOPPED interrupt bit from
state 0 (and no further ops) makes the check true, and disabling it makes
the check false; the traces are the two direct writes. -/
theorem int_enable_disable_spec_witness :
    (nrf_spim_int_enable memZero 0 3).2 =
      [Access.write (0 + off_INTENSET) (3 % 2 ^ 32)] ∧
    (nrf_spim_int_disable memZero 0 3).2 =
      [Access.write (0 + off_INTENCLR) (3 % 2 ^ 32)] ∧
    hwIntCheck 0
      (runIntOps 0
        (runIntOp 0 0 (IntOp.en (intMaskVal nrf_spim_int_mask_t.STOPPED)))
        []) nrf_spim_int_mask_t.STOPPED = true ∧
    hwIntCheck 0
      (runIntOp 0 0 (IntOp.dis (intMaskVal nrf_spim_int_mask_t.STOPPED)))
      nrf_spim_int_mask_t.STOPPED = false :=
  int_enable_disable_spec memZero 0 3 0 nrf_spim_int_mask_t.STOPPED []
    (by intro op hop; exact absurd hop (List.not_mem_nil op))

end NrfSpim
